import Mathlib

/-!
Verification of the conversation-segmentation and annotated-processing pipeline.

Shallow embedding of the Python sources:
  * `src/utils/conv/conversation.py` (enums, `ConvBlock.from_csv_block`,
    `get_category_for_intent`, `validate_request_category`, `Conversation`),
  * `src/utils/conv/parser.py` (`ConversationParser.segment_conversations`,
    `ConversationParser.parse_conversations`),
  * `src/utils/problem_eda.py` (`ProblemDetector`),
  * `src/utils/qroq/groq_mapper.py` (`GroqMapper` retry loop, wait-time
    extraction, intent parsing, defaults),
  * `src/utils/conv_processor.py` and `src/utils/qroq/groq_processor.py`
    (batch loops: result persistence and checkpoint writes, modelled as an
    explicit event trace in the order the code performs the writes).

Machine floats of the source are modelled as rationals, timestamps as rational
seconds, and the external oracle as an explicit per-attempt outcome function.
-/

namespace FinamTask

/-! Section: Enumerations (src/utils/conv/conversation.py) -/

/-- Embedding of `SentimentType` enum. -/
inductive SentimentType
  | positive
  | negative
  | neutral
deriving DecidableEq, Repr

/-- Embedding of `ProblemType` enum. -/
inductive ProblemType
  | technical_issues
  | user_confusion
  | system_limitations
  | missing_information
  | routing_error
  | performance_latency
deriving DecidableEq, Repr

/-- Embedding of `EmotionType` enum. -/
inductive EmotionType
  | frustration
  | satisfaction
  | confusion
  | urgency
deriving DecidableEq, Repr

/-- Embedding of `CategoryType` enum. -/
inductive CategoryType
  | information
  | communication
  | other
  | project_tasks
  | hr
  | organizational
  | tech_support
  | products_info
  | department_info
  | meetings
  | task_management
  | faq
  | feedback
  | statistics
  | design_request
  | sources_request
deriving DecidableEq, Repr

/-- Embedding of `IntentType` enum. -/
inductive IntentType
  | technical_help
  | process_question
  | general_info
  | product_info
  | organization_info
  | source_request
  | statistics
  | coordination
  | feedback
  | project_task
  | task_management
  | hr_request
  | meeting_management
  | faq_usage
  | design_request
deriving DecidableEq, Repr

/-- Embedding of `BlockType` enum (roles of conversation blocks). -/
inductive BlockType
  | system
  | user
  | agent
deriving DecidableEq, Repr

/-- Embedding of `AgentType` enum. -/
inductive AgentType
  | supervisor
  | facts
  | questions
  | departments
  | products
  | tasks
  | meetings
  | hr
  | faq
  | feedback
  | sources
  | statistic
  | designer
deriving DecidableEq, Repr

/-! Section: Python string helpers

`str.lower()` restricted to the alphabets actually used by the detector
keywords and the data: ASCII letters and the basic Cyrillic block. -/

/-- Lower-casing of one character: ASCII `A`-`Z`, Cyrillic `А`-`Я` and `Ё`. -/
def pyLowerChar (c : Char) : Char :=
  if 'A' ≤ c ∧ c ≤ 'Z' then Char.ofNat (c.toNat + 32)
  else if 'А' ≤ c ∧ c ≤ 'Я' then Char.ofNat (c.toNat + 32)
  else if c = 'Ё' then 'ё'
  else c

/-- Embedding of `s.lower()` over the supported alphabets. -/
def pyLower (s : String) : String :=
  ⟨s.data.map pyLowerChar⟩

/-- Python slicing `s[:n]` (`block_data[:150] if len(block_data) > 150 else block_data`
is exactly "take the first `n` characters"). -/
def pyTake (s : String) (n : ℕ) : String :=
  ⟨s.data.take n⟩

/-- Does `hay` start with `needle` (character lists)? -/
def startsWithChars : List Char → List Char → Bool
  | [], _ => true
  | _ :: _, [] => false
  | a :: as, b :: bs => a == b && startsWithChars as bs

/-- Does `needle` occur contiguously inside `hay` (character lists)? -/
def infixOfChars (needle : List Char) : List Char → Bool
  | [] => startsWithChars needle []
  | c :: t => startsWithChars needle (c :: t) || infixOfChars needle t

/-- Substring test: `needle in hay` on Python strings. -/
def strContains (hay needle : String) : Bool :=
  infixOfChars needle.data hay.data

/-! Section: ConvBlock construction (`ConvBlock.from_csv_block`, conversation.py:128-182) -/

/-- One block of a conversation (`ConvBlock`). -/
structure ConvBlock where
  block_type : BlockType
  text : String
  agent_type : Option AgentType
deriving DecidableEq, Repr

/-- Embedding of `block_type_mapping` dict of `from_csv_block`, in source order.
`"intermidiat_response"` is the CSV spelling of the intermediate event kind. -/
def block_type_mapping : List (String × BlockType) :=
  [("request", BlockType.user),
   ("response", BlockType.system),
   ("intermidiat_response", BlockType.agent)]

/-- Embedding of `block_type_mapping.get(csv_block_type, BlockType.SYSTEM)`. -/
def mapBlockType (csv_block_type : String) : BlockType :=
  (block_type_mapping.lookup csv_block_type).getD BlockType.system

/-- Embedding of `agent_names` dict of `_extract_agent_type`, in source (insertion) order. -/
def agent_names : List (String × AgentType) :=
  [("Supervisor", AgentType.supervisor),
   ("Facts assistant", AgentType.facts),
   ("Questions assistant", AgentType.questions),
   ("Departments assistant", AgentType.departments),
   ("Products assistant", AgentType.products),
   ("Tasks assistant", AgentType.tasks),
   ("Meetings assistant", AgentType.meetings),
   ("HR assistant", AgentType.hr),
   ("FAQ assistant", AgentType.faq),
   ("Feedback assistant", AgentType.feedback),
   ("Sources assistant", AgentType.sources),
   ("Statistic assistant", AgentType.statistic),
   ("Designer assistant", AgentType.designer)]

/-- The `for agent_name, agent_type in agent_names.items()` loop:
first marker contained in the block data wins. -/
def extractFromMarkers : List (String × AgentType) → String → Option AgentType
  | [], _ => none
  | (nm, t) :: rest, d => if strContains d nm then some t else extractFromMarkers rest d

/-- Embedding of `ConvBlock._extract_agent_type` (conversation.py:158-182). -/
def extract_agent_type (block_data : String) : Option AgentType :=
  extractFromMarkers agent_names block_data

/-- Embedding of `ConvBlock.from_csv_block` (conversation.py:128-156): maps the CSV block
kind to a role, truncates non-user text to 150 characters, and extracts the
agent type for agent blocks. -/
def from_csv_block (block_data csv_block_type : String) : ConvBlock :=
  let bt := mapBlockType csv_block_type
  let text := if bt = BlockType.user then block_data else pyTake block_data 150
  let at0 := if bt = BlockType.agent then extract_agent_type block_data else none
  ⟨bt, text, at0⟩

/-! Section: Analysis data model (conversation.py:185-339) -/

/-- Embedding of `RequestCategory` (category and intent tag lists). -/
structure RequestCategory where
  category : List CategoryType
  intent : List IntentType
deriving DecidableEq, Repr

/-- Embedding of `ProblemDetection`. -/
structure ProblemDetection where
  problems : List ProblemType
deriving DecidableEq, Repr

/-- Embedding of `UX` (confidence modelled as a rational). -/
structure UX where
  sentiment : SentimentType
  sentiment_confidence : ℚ
  emotions : List EmotionType
  feedback : List String
  suggestions : List String
  is_successful : Bool
deriving DecidableEq, Repr

/-- Embedding of `ConversationMap`: the structured analysis attached to a conversation. -/
structure ConversationMap where
  request : RequestCategory
  problems : ProblemDetection
  ux : UX
deriving DecidableEq, Repr

/-- Embedding of `Conversation` (timestamps as rational seconds, floats as rationals). -/
structure Conversation where
  dialogue_id : ℕ
  user_id : ℕ
  start_time : ℚ
  end_time : ℚ
  duration_minutes : ℚ
  message_count : ℕ
  full_text : String
  blocks : List ConvBlock
  agent_types : List AgentType
  departments : List ℚ
  analysis : Option ConversationMap
deriving DecidableEq, Repr

/-- Embedding of `get_category_for_intent` (conversation.py:238-273): the fixed
intent-to-category lookup table; every enum member is listed, so the
dict default `OTHER` is unreachable. -/
def get_category_for_intent : IntentType → CategoryType
  | .general_info => .information
  | .product_info => .information
  | .organization_info => .information
  | .source_request => .information
  | .statistics => .information
  | .coordination => .communication
  | .feedback => .communication
  | .project_task => .project_tasks
  | .task_management => .project_tasks
  | .hr_request => .hr
  | .meeting_management => .organizational
  | .technical_help => .tech_support
  | .faq_usage => .faq
  | .design_request => .design_request
  | .process_question => .other

/-- Embedding of `validate_request_category` (conversation.py:276-291): recompute the
category from the first intent and overwrite the category list only when the
expected category is absent from it. -/
def validate_request_category (r : RequestCategory) : RequestCategory :=
  match r.intent with
  | [] => r
  | primary :: _ =>
    let expected := get_category_for_intent primary
    if expected ∈ r.category then r else { r with category := [expected] }

/-! Section: Problem keyword detector (src/utils/problem_eda.py) -/

/-- Keyword lists of `ProblemDetector._init_keywords`, per problem type.
`performance_latency` has no keyword list in the source dict. -/
def problemKeywords : ProblemType → List String
  | .technical_issues =>
    ["ошибка", "сбой", "упал", "не работает", "неисправность", "баг",
     "глюк", "поломка", "отказ", "нарушение", "проблема с системой",
     "технические неполадки", "системная ошибка", "сервер недоступен",
     "соединение потеряно", "timeout", "connection lost",
     "error", "exception", "failed", "failure", "crash", "bug",
     "traceback", "stack trace", "server error", "500", "503", "502",
     "database error", "connection error", "network error",
     "internal error", "system failure", "malfunction"]
  | .user_confusion =>
    ["не понимаю", "не понял", "не поняла", "что именно", "как именно",
     "поясните", "объясните", "уточните", "что вы имеете в виду",
     "не ясно", "непонятно", "можете объяснить", "что это значит",
     "как это работает", "не разобрался", "запутался", "сложно понять",
     "QA уточняет", "нужны уточнения", "требуется пояснение",
     "please clarify", "not clear", "confused", "do not understand",
     "what do you mean", "can you explain", "please explain",
     "i don\x27t get it", "unclear", "ambiguous", "vague"]
  | .system_limitations =>
    ["не могу", "не умею", "не поддерживается", "недоступно",
     "функция отсутствует", "пока не реализовано", "в разработке",
     "не предусмотрено", "ограничение системы", "нет такой возможности",
     "данная функция недоступна", "не может быть выполнено",
     "превышен лимит", "нет прав доступа", "функция заблокирована",
     "not supported", "feature not available", "cannot perform",
     "limitation", "restricted", "access denied", "permission denied",
     "feature disabled", "not implemented", "under development",
     "out of scope", "beyond capabilities"]
  | .missing_information =>
    ["не найдено", "ничего не найдено", "нет данных", "отсутствует",
     "информация недоступна", "данные отсутствуют", "пустой результат",
     "нет результатов", "база данных пуста", "записи не найдены",
     "файл не найден", "документ отсутствует", "нет такого пользователя",
     "не существует", "информация устарела", "данные не обновлены",
     "not found", "no data", "no results", "empty result",
     "no information", "data not available", "missing data",
     "no records", "database empty", "file not found",
     "document missing", "user not found", "does not exist",
     "no match", "zero results", "no entries"]
  | .routing_error =>
    ["не по адресу", "неправильный ассистент", "не мой профиль",
     "не моя специализация", "обратитесь к другому", "не компетентен",
     "это не ко мне", "передаю другому специалисту", "неправильный отдел",
     "не в моей компетенции", "обратитесь в другой отдел",
     "я не занимаюсь этим", "не моя задача", "переадресую",
     "wrong assistant", "not my area", "wrong department",
     "transfer to", "redirect to", "not my expertise",
     "out of my scope", "contact another", "wrong person",
     "incorrect routing", "misrouted", "wrong channel"]
  | .performance_latency => []

/-- The `self.keywords` dict in its source (insertion) order. -/
def keywordTable : List (ProblemType × List String) :=
  [(ProblemType.technical_issues, problemKeywords ProblemType.technical_issues),
   (ProblemType.user_confusion, problemKeywords ProblemType.user_confusion),
   (ProblemType.system_limitations, problemKeywords ProblemType.system_limitations),
   (ProblemType.missing_information, problemKeywords ProblemType.missing_information),
   (ProblemType.routing_error, problemKeywords ProblemType.routing_error)]

/-- Embedding of `ProblemDetector._get_conversation_text` (problem_eda.py:126-137):
lower-cased block texts joined by spaces, or the lower-cased `full_text`
when there are no blocks. -/
def getConversationText (c : Conversation) : String :=
  match c.blocks with
  | [] => pyLower c.full_text
  | _ :: _ => String.intercalate " " (c.blocks.map (fun b => pyLower b.text))

/-- Embedding of `ProblemDetector._has_keywords` (problem_eda.py:139-142). -/
def hasKeywords (text : String) (keywords : List String) : Bool :=
  keywords.any (fun k => strContains (pyLower text) (pyLower k))

/-- Embedding of `ProblemDetector._has_performance_latency` (problem_eda.py:144-158):
with no blocks, compare the duration in seconds against the threshold;
with blocks, require at least one user block and one system block first. -/
def hasPerformanceLatency (thresholdSeconds : ℚ) (c : Conversation) : Bool :=
  match c.blocks with
  | [] => decide (c.duration_minutes * 60 > thresholdSeconds)
  | _ :: _ =>
    if c.blocks.any (fun b => b.block_type = BlockType.user) ∧
       c.blocks.any (fun b => b.block_type = BlockType.system) then
      decide (c.duration_minutes * 60 > thresholdSeconds)
    else
      false

/-- The keyword loop of `detect_problems`: collect every table entry whose
keyword list matches the conversation text. -/
def detectLoop (text : String) : List (ProblemType × List String) → List ProblemType
  | [] => []
  | (t, kws) :: rest =>
    (if hasKeywords text kws then [t] else []) ++ detectLoop text rest

/-- Embedding of `ProblemDetector.detect_problems` (problem_eda.py:100-124); the source
builds a set, embedded as a duplicate-free list. -/
def detect_problems (thresholdSeconds : ℚ) (c : Conversation) : List ProblemType :=
  detectLoop (getConversationText c) keywordTable ++
    (if hasPerformanceLatency thresholdSeconds c then [ProblemType.performance_latency] else [])

/-- Embedding of `create_problem_detection_for_conversation` (problem_eda.py:260-275):
uses a detector with the default 10-second latency threshold. -/
def create_problem_detection_for_conversation (c : Conversation) : ProblemDetection :=
  ⟨detect_problems 10 c⟩

/-! Section: Groq mapper (src/utils/qroq/groq_mapper.py)

The external oracle is modelled as a per-attempt outcome: either an already
parsed value (the source's `_parse_*_analysis` applied to the raw response)
or an exception message string. -/

/-- Numeric value of a digit run. -/
def digitsVal (ds : List Char) : ℕ :=
  ds.foldl (fun a c => 10 * a + (c.toNat - 48)) 0

/-- Value of a fractional digit run (digits after the decimal point). -/
def fracVal (ds : List Char) : ℚ :=
  (digitsVal ds : ℚ) / (10 ^ ds.length)

/-- Try to match `Please try again in (\d+\.?\d*)s` at the start of `cs`,
returning the parsed number of seconds. -/
def tryMatchWait (cs : List Char) : Option ℚ :=
  let lit := "Please try again in ".data
  if startsWithChars lit cs then
    let rest0 := cs.drop lit.length
    let ds := rest0.takeWhile Char.isDigit
    let rest1 := rest0.drop ds.length
    if ds.isEmpty then none
    else
      match rest1 with
      | 's' :: _ => some (digitsVal ds)
      | '.' :: rest2 =>
        let fs := rest2.takeWhile Char.isDigit
        (match rest2.drop fs.length with
         | 's' :: _ => some ((digitsVal ds : ℚ) + fracVal fs)
         | _ => none)
      | _ => none
  else none

/-- Leftmost match of the wait-time pattern (the scan of `re.search`). -/
def scanWait : List Char → Option ℚ
  | [] => none
  | c :: t =>
    match tryMatchWait (c :: t) with
    | some v => some v
    | none => scanWait t

/-- Embedding of `GroqMapper._extract_wait_time` (groq_mapper.py:94-103). -/
def extract_wait_time (err : String) : Option ℚ :=
  scanWait err.data

/-- The rate-limit test of `_handle_rate_limit_error` (groq_mapper.py:177):
`"rate_limit_exceeded" in error_str or "429" in error_str`. -/
def isRateLimitError (err : String) : Bool :=
  strContains err "rate_limit_exceeded" || strContains err "429"

/-- Outcome of `_handle_rate_limit_error`: retry after sleeping `wait`
seconds, or stop retrying. -/
inductive RetryDecision
  | retry (wait : ℚ)
  | abort
deriving DecidableEq, Repr

/-- Embedding of `GroqMapper._handle_rate_limit_error` (groq_mapper.py:173-191); the
`random.uniform(0, 1)` jitter is passed in as a parameter. -/
def handle_rate_limit_error (err : String) (attempt max_retries : ℕ)
    (base_delay jitter : ℚ) : RetryDecision :=
  if isRateLimitError err then
    if attempt < max_retries - 1 then
      RetryDecision.retry ((extract_wait_time err).getD (base_delay * 2 ^ attempt + jitter))
    else
      RetryDecision.abort
  else
    RetryDecision.abort

/-- One oracle call: a parsed value or an exception message. -/
inductive OracleStep (α : Type)
  | ok (val : α)
  | err (msg : String)
deriving DecidableEq, Repr

/-- The `for attempt in range(max_retries)` loop of `_analyze_ux` and
`_analyze_intent` (groq_mapper.py:105-171), recursing over the remaining
attempt indices. Returns the produced value and the recorded backoff
sleeps. A successful call returns immediately; a handled rate-limit error
sleeps and retries; any other error (or exhaustion) yields the default. -/
def runAttempts {α : Type} (oracle : ℕ → OracleStep α) (dflt : α)
    (max_retries : ℕ) (base_delay : ℚ) (jitter : ℕ → ℚ) :
    List ℕ → α × List ℚ
  | [] => (dflt, [])
  | a :: rest =>
    match oracle a with
    | .ok v => (v, [])
    | .err m =>
      match handle_rate_limit_error m a max_retries base_delay (jitter a) with
      | .retry w =>
        let p := runAttempts oracle dflt max_retries base_delay jitter rest
        (p.1, w :: p.2)
      | .abort => (dflt, [])

/-- Embedding of `GroqMapper._default_ux_analysis` (groq_mapper.py:311-320). -/
def default_ux_analysis : UX :=
  ⟨SentimentType.neutral, 1 / 2, [], [], [], true⟩

/-- Embedding of `GroqMapper._default_request_category` (groq_mapper.py:345-350). -/
def default_request_category : RequestCategory :=
  ⟨[CategoryType.other], [IntentType.general_info]⟩

/-- The enum's string values, for `IntentType(intent_str)`. -/
def intentTypeValues : List (String × IntentType) :=
  [("technical_help", IntentType.technical_help),
   ("process_question", IntentType.process_question),
   ("general_info", IntentType.general_info),
   ("product_info", IntentType.product_info),
   ("organization_info", IntentType.organization_info),
   ("source_request", IntentType.source_request),
   ("statistics", IntentType.statistics),
   ("coordination", IntentType.coordination),
   ("feedback", IntentType.feedback),
   ("project_task", IntentType.project_task),
   ("task_management", IntentType.task_management),
   ("hr_request", IntentType.hr_request),
   ("meeting_management", IntentType.meeting_management),
   ("faq_usage", IntentType.faq_usage),
   ("design_request", IntentType.design_request)]

/-- Embedding of `IntentType(intent_str)`, `none` in place of `ValueError`. -/
def intentOfString (s : String) : Option IntentType :=
  intentTypeValues.lookup s

/-- Embedding of `GroqMapper._parse_intent_analysis` (groq_mapper.py:322-343). The input
models the `json.loads` outcome: `none` when loading (or anything in the
`try` block) raises, otherwise `some field` where `field` is the optional
`"intent"` entry of the parsed object. -/
def parse_intent_analysis : Option (Option String) → RequestCategory
  | none => default_request_category
  | some field =>
    let intent_str := field.getD "general_info"
    let intent := (intentOfString intent_str).getD IntentType.general_info
    ⟨[get_category_for_intent intent], [intent]⟩

/-- Embedding of `GroqMapper._analyze_ux` (groq_mapper.py:105-137): `max_retries = 3`,
`base_delay = 1.0`. -/
def analyze_ux_model (oracle : ℕ → OracleStep UX) (jitter : ℕ → ℚ) : UX × List ℚ :=
  runAttempts oracle default_ux_analysis 3 1 jitter (List.range 3)

/-- Embedding of `GroqMapper._analyze_intent` (groq_mapper.py:139-171). -/
def analyze_intent_model (oracle : ℕ → OracleStep RequestCategory)
    (jitter : ℕ → ℚ) : RequestCategory × List ℚ :=
  runAttempts oracle default_request_category 3 1 jitter (List.range 3)

/-- Embedding of `GroqMapper.map_conversation` (groq_mapper.py:65-92): UX analysis,
intent analysis, keyword problem detection, all merged into a
`ConversationMap` attached to a copy of the conversation. `_analyze_ux`
and `_analyze_intent` handle their exceptions internally, so the
surrounding `except` branch (which would return the original) is not
reached for oracle errors. -/
def map_conversation_model (uxOracle : ℕ → OracleStep UX)
    (intentOracle : ℕ → OracleStep RequestCategory)
    (jux jint : ℕ → ℚ) (c : Conversation) : Conversation :=
  let ux := (analyze_ux_model uxOracle jux).1
  let req := (analyze_intent_model intentOracle jint).1
  let probs := create_problem_detection_for_conversation c
  { c with analysis := some ⟨req, probs, ux⟩ }

/-! Section: Batch processing (src/utils/conv_processor.py) -/

/-- The dict returned by `process_conversation_sync`. -/
structure TaskResult where
  conversation : Conversation
  success : Bool
  error : Option String
deriving DecidableEq, Repr

/-- Embedding of `ConversationProcessor.process_conversation_sync` (conv_processor.py:137-157)
applied to a total mapper: the `try` branch. (The groq mapper catches all its
exceptions internally and always returns a conversation.) -/
def process_conversation_sync (mapper : Conversation → Conversation)
    (c : Conversation) : TaskResult :=
  ⟨mapper c, true, none⟩

/-- Per-task outcome as seen by the result-collection loop of
`process_conversations_concurrent` (conv_processor.py:193-220):
the future resolves with `success=True`, resolves with `success=False`
(the result dict then carries the original conversation), or
`future.result(timeout=120)` raises (per-task timeout or error). -/
inductive TaskOutcome
  | success (analyzed : Conversation)
  | failure (errMsg : String)
  | timedOut
deriving DecidableEq, Repr

/-- The record appended to `batch_processed` for one task: the analyzed
conversation on success, the original conversation otherwise. -/
def taskRecord (original : Conversation) : TaskOutcome → Conversation
  | .success analyzed => analyzed
  | .failure _ => original
  | .timedOut => original

/-- The result-collection loop over one batch: one record per submitted
conversation, in order. -/
def collectBatch (batch : List Conversation) (outcomes : List TaskOutcome) :
    List Conversation :=
  (batch.zip outcomes).map (fun p => taskRecord p.1 p.2)

/-! Section: Persistence order (conv_processor.py:224-242, groq_processor.py:242-254)

The two write targets (result store and checkpoint file) are modelled as a
state, and each processor's per-batch write sequence as an event trace in
source order. -/

/-- A write performed by the orchestrating loop. -/
inductive PersistEvent
  | writeResults (count : ℕ)
  | writeCheckpoint (index : ℕ)
  | sleepBetween
deriving DecidableEq, Repr

/-- Number of conversation results durably persisted, and the checkpoint's
`last_completed_index` (0 before any checkpoint write, for a fresh run). -/
structure StoreState where
  persisted : ℕ
  checkpoint : ℕ
deriving DecidableEq, Repr

/-- Effect of one write on the durable state. -/
def applyEvent (s : StoreState) : PersistEvent → StoreState
  | .writeResults k => { s with persisted := s.persisted + k }
  | .writeCheckpoint i => { s with checkpoint := i }
  | .sleepBetween => s

/-- Replay a trace of writes from a state. -/
def replayFrom (s : StoreState) (t : List PersistEvent) : StoreState :=
  t.foldl applyEvent s

/-- Per-batch writes of `ConversationProcessor.process_conversations_concurrent`
(conv_processor.py:224-242), for a fresh run over batches of the given sizes:
`save_results(batch)` first, then `save_progress(total_processed)`, then the
1-second inter-batch sleep. `done` counts conversations completed so far. -/
def convProcessorTrace : ℕ → List ℕ → List PersistEvent
  | _, [] => []
  | done, k :: rest =>
    PersistEvent.writeResults k :: PersistEvent.writeCheckpoint (done + k) ::
      PersistEvent.sleepBetween :: convProcessorTrace (done + k) rest

/-- Per-batch writes of `GroqProcessor.process_ux_and_intent_analysis`
(groq_processor.py:242-254): `save_progress(total_processed)` first, then
`update_conversations_file`, then the sleep. -/
def groqProcessorTrace : ℕ → List ℕ → List PersistEvent
  | _, [] => []
  | done, k :: rest =>
    PersistEvent.writeCheckpoint (done + k) :: PersistEvent.writeResults k ::
      PersistEvent.sleepBetween :: groqProcessorTrace (done + k) rest

/-! Section: Event segmentation (src/utils/conv/parser.py) -/

/-- One CSV row (`timestamp` in rational seconds, `nnDepartment` as an
optional float). -/
structure RawEvent where
  user_id : ℕ
  timestamp : ℚ
  block_type : String
  block_data : String
  department : Option ℚ
deriving DecidableEq, Repr

/-- The boundary condition of `segment_conversations` (parser.py:49-50):
time gap strictly greater than the threshold, or a response followed by a
request. -/
def newConversationStart (thresholdSeconds : ℚ) (prev cur : RawEvent) : Bool :=
  decide (cur.timestamp - prev.timestamp > thresholdSeconds) ||
    (prev.block_type == "response" && cur.block_type == "request")

/-- The dialogue id assigned to `cur`, given the previous event and the
current id. -/
def nextId (thr : ℚ) (prev cur : RawEvent) (id0 : ℕ) : ℕ :=
  if newConversationStart thr prev cur then id0 + 1 else id0

/-- The `for idx in range(len(user_data))` loop body for indices `≥ 1`:
assign each event an id, threading the previous event and current id. -/
def assignIds (thr : ℚ) : RawEvent → ℕ → List RawEvent → List ℕ
  | _, _, [] => []
  | prev, cur_id, e :: rest =>
    let nid := nextId thr prev e cur_id
    nid :: assignIds thr e nid rest

/-- Dialogue ids for one user's time-sorted events
(`ConversationParser.segment_conversations`, parser.py:21-58): the first
event keeps the starting id, later events follow the boundary rule. -/
def segmentUser (thr : ℚ) (startId : ℕ) : List RawEvent → List ℕ
  | [] => []
  | e :: rest => startId :: assignIds thr e startId rest

/-! Section: Conversation construction (`parse_conversations`, parser.py:60-121) -/

/-- Deduplication keeping first occurrences, threading the `seen` set. -/
def dedupSeen {α : Type} [DecidableEq α] (seen : List α) : List α → List α
  | [] => []
  | x :: xs => if x ∈ seen then dedupSeen seen xs else x :: dedupSeen (x :: seen) xs

/-- Embedding of `seen = set(); keep first occurrence` over a list. -/
def dedupFirst {α : Type} [DecidableEq α] (l : List α) : List α :=
  dedupSeen [] l

/-- The block-construction loop (parser.py:88-98): keep only rows whose
`block_data` was not seen before. -/
def dedupRowsSeen (seen : List String) : List RawEvent → List RawEvent
  | [] => []
  | r :: rs =>
    if r.block_data ∈ seen then dedupRowsSeen seen rs
    else r :: dedupRowsSeen (r.block_data :: seen) rs

/-- Embedding of `conversation_data['timestamp'].min()` over `r0 :: rest`. -/
def minTimestamp (r0 : RawEvent) (rest : List RawEvent) : ℚ :=
  rest.foldl (fun a r => min a r.timestamp) r0.timestamp

/-- Embedding of `conversation_data['timestamp'].max()` over `r0 :: rest`. -/
def maxTimestamp (r0 : RawEvent) (rest : List RawEvent) : ℚ :=
  rest.foldl (fun a r => max a r.timestamp) r0.timestamp

/-- One iteration of the `parse_conversations` loop (parser.py:65-119) over a
non-empty group of rows carrying one dialogue id, already sorted by
timestamp: metadata from the raw rows, deduplicated `full_text` and block
list, deduplicated departments, and `update_agent_types` over the blocks. -/
def buildConversation (did : ℕ) (r0 : RawEvent) (rest : List RawEvent) : Conversation :=
  let rows := r0 :: rest
  let startT := minTimestamp r0 rest
  let endT := maxTimestamp r0 rest
  let blocks := (dedupRowsSeen [] rows).map (fun r => from_csv_block r.block_data r.block_type)
  { dialogue_id := did
    user_id := r0.user_id
    start_time := startT
    end_time := endT
    duration_minutes := (endT - startT) / 60
    message_count := rows.length
    full_text := String.intercalate "\n" (dedupFirst (rows.map (fun r => r.block_data)))
    blocks := blocks
    agent_types := dedupFirst (blocks.filterMap
      (fun b => if b.block_type = BlockType.agent then b.agent_type else none))
    departments := dedupFirst (rows.filterMap (fun r => r.department))
    analysis := none }

/-! Section: Theorems -/

/-- The marker loop is the first-match search over the ordered marker list. -/
theorem extractFromMarkers_eq_find (l : List (String × AgentType)) (d : String) :
    extractFromMarkers l d = (l.find? (fun p => strContains d p.1)).map Prod.snd := by
  induction l with
  | nil => rfl
  | cons hd rest ih =>
    obtain ⟨nm, t⟩ := hd
    by_cases h : strContains d nm
    · simp [extractFromMarkers, List.find?_cons_of_pos, h]
    · simp only [extractFromMarkers, h]
      rw [List.find?_cons_of_neg _ (by simpa using h)]
      simpa using ih

/-- Claim C8: `from_csv_block` maps the CSV block kind `request` to the user
role, `response` to the system role and the intermediate kind (spelled
`intermidiat_response` in the CSV) to the agent role; for agent blocks the
agent type is the first marker of the fixed ordered `agent_names` list found
inside the block text (`none` when no marker matches), and non-agent blocks
carry no agent type. -/
theorem c8_block_role_and_agent_marker (d : String) :
    (from_csv_block d "request").block_type = BlockType.user ∧
    (from_csv_block d "response").block_type = BlockType.system ∧
    (from_csv_block d "intermidiat_response").block_type = BlockType.agent ∧
    (from_csv_block d "intermidiat_response").agent_type =
      (agent_names.find? (fun p => strContains d p.1)).map Prod.snd ∧
    (from_csv_block d "request").agent_type = none ∧
    (from_csv_block d "response").agent_type = none := by
  refine ⟨rfl, rfl, rfl, ?_, rfl, rfl⟩
  exact extractFromMarkers_eq_find agent_names d

/-- Claim C10: blocks built from a raw event keep the full text for the user
role and are truncated to the first 150 characters for the system and agent
roles, so every non-user block text has length at most 150. -/
theorem c10_nonuser_text_truncated (d k : String) :
    (from_csv_block d k).text =
      (if mapBlockType k = BlockType.user then d else pyTake d 150) ∧
    ((from_csv_block d k).block_type = BlockType.user ∨
      (from_csv_block d k).text.length ≤ 150) := by
  refine ⟨rfl, ?_⟩
  by_cases h : mapBlockType k = BlockType.user
  · exact Or.inl h
  · right
    show (if mapBlockType k = BlockType.user then d else pyTake d 150).length ≤ 150
    rw [if_neg h]
    show (d.data.take 150).length ≤ 150
    simp

/-- Claim C2 (counterexample): the fallback `RequestCategory` produced when
oracle response parsing fails has category `[other]` but intent
`[general_info]`, and the fixed table maps `general_info` to `information`
— so its category list is not the table-derived value of its first intent. -/
theorem c2_fallback_category_inconsistent :
    parse_intent_analysis none =
      ⟨[CategoryType.other], [IntentType.general_info]⟩ ∧
    get_category_for_intent IntentType.general_info = CategoryType.information ∧
    (parse_intent_analysis none).category ≠
      [get_category_for_intent IntentType.general_info] := by
  refine ⟨rfl, rfl, by decide⟩

/-- Claim C2 (amended): every `RequestCategory` built from a successfully
parsed oracle response has category exactly the table value of its single
intent entry; the parse-failure fallback is the fixed pair
`([other], [general_info])`, which is not table-consistent; and the unused
`validate_request_category` helper only guarantees that the table value of
the first intent is a member of the category list. -/
theorem c2_parsed_category_from_intent_table :
    (∀ field : Option String, ∃ i : IntentType,
      parse_intent_analysis (some field) = ⟨[get_category_for_intent i], [i]⟩) ∧
    parse_intent_analysis none = default_request_category ∧
    (∀ (cats : List CategoryType) (primary : IntentType) (others : List IntentType),
      get_category_for_intent primary ∈
        (validate_request_category ⟨cats, primary :: others⟩).category) := by
  refine ⟨?_, rfl, ?_⟩
  · intro field
    exact ⟨(intentOfString (field.getD "general_info")).getD IntentType.general_info, rfl⟩
  · intro cats primary others
    unfold validate_request_category
    dsimp only
    by_cases h : get_category_for_intent primary ∈ cats
    · rw [if_pos h]
      exact h
    · rw [if_neg h]
      exact List.mem_singleton.mpr rfl

/-- Step relation of the id-assignment loop: each assigned id follows from
the previous assigned id and the two adjacent events. -/
theorem assignIds_step (thr : ℚ) :
    ∀ (evs : List RawEvent) (prev : RawEvent) (id0 : ℕ) (i : ℕ)
      (a b : RawEvent) (c : ℕ),
      evs.get? i = some a → evs.get? (i + 1) = some b →
      (assignIds thr prev id0 evs).get? i = some c →
      (assignIds thr prev id0 evs).get? (i + 1) = some (nextId thr a b c) := by
  intro evs
  induction evs with
  | nil => intro prev id0 i a b c h1 _ _; simp at h1
  | cons e rest ih =>
    intro prev id0 i a b c h1 h2 h3
    match i with
    | 0 =>
      simp only [List.get?_cons_zero, Option.some.injEq] at h1
      subst h1
      match rest, h2 with
      | e2 :: rest2, h2 =>
        simp only [List.get?_cons_succ, List.get?_cons_zero, Option.some.injEq] at h2
        subst h2
        simp only [assignIds, List.get?_cons_zero, Option.some.injEq] at h3
        subst h3
        simp [assignIds]
    | j + 1 =>
      simp only [List.get?_cons_succ] at h1 h2
      simp only [assignIds, List.get?_cons_succ] at h3 ⊢
      exact ih e (nextId thr prev e id0) j a b c h1 h2 h3

/-- Claim C3: within one user's time-sorted events, the segmenter assigns the
next event a fresh dialogue id exactly when the timestamp gap strictly
exceeds the threshold or the previous event is a `response` and the current
one a `request`; otherwise the dialogue id is carried over unchanged. -/
theorem c3_segment_boundary_rule (thr : ℚ) (startId : ℕ) (evs : List RawEvent)
    (i : ℕ) (a b : RawEvent) (c : ℕ)
    (h1 : evs.get? i = some a) (h2 : evs.get? (i + 1) = some b)
    (h3 : (segmentUser thr startId evs).get? i = some c) :
    (segmentUser thr startId evs).get? (i + 1) =
      some (if b.timestamp - a.timestamp > thr ∨
              (a.block_type = "response" ∧ b.block_type = "request")
            then c + 1 else c) := by
  have hiff : (b.timestamp - a.timestamp > thr ∨
      (a.block_type = "response" ∧ b.block_type = "request")) ↔
      newConversationStart thr a b = true := by
    simp [newConversationStart]
  have hif : (if b.timestamp - a.timestamp > thr ∨
                (a.block_type = "response" ∧ b.block_type = "request")
              then c + 1 else c) = nextId thr a b c := by
    rw [if_congr hiff rfl rfl]
    rfl
  rw [hif]
  match evs, h1, h2, h3 with
  | e :: rest, h1, h2, h3 =>
    match i with
    | 0 =>
      simp only [List.get?_cons_zero, Option.some.injEq] at h1
      subst h1
      simp only [List.get?_cons_succ, List.get?_cons_zero] at h2
      simp only [segmentUser, List.get?_cons_zero, Option.some.injEq] at h3
      subst h3
      match rest, h2 with
      | e2 :: rest2, h2 =>
        simp only [List.get?_cons_zero, Option.some.injEq] at h2
        subst h2
        simp [segmentUser, assignIds]
    | j + 1 =>
      simp only [List.get?_cons_succ] at h1 h2
      simp only [segmentUser, List.get?_cons_succ] at h3 ⊢
      exact assignIds_step thr rest e startId j a b c h1 h2 h3

/-- First example of the spec's boundary tests: request at t=0, response at
t=5 min, request at t=6 min. -/
def boundaryEventA : RawEvent := ⟨7, 0, "request", "hello", none⟩

/-- Second event of the boundary example. -/
def boundaryEventB : RawEvent := ⟨7, 300, "response", "answer", none⟩

/-- Third event of the boundary example. -/
def boundaryEventC : RawEvent := ⟨7, 360, "request", "again", none⟩

/-- Claim C3 (witness): on the spec's example (request t=0, response t=5min,
request t=6min, threshold 30 min) the turn-boundary rule fires despite the
1-minute gap, giving ids `[1, 1, 2]` — two conversations. -/
theorem c3_segment_boundary_rule_witness :
    (segmentUser 1800 1 [boundaryEventA, boundaryEventB, boundaryEventC]).get? 2 =
      some 2 ∧
    segmentUser 1800 1 [boundaryEventA, boundaryEventB, boundaryEventC] = [1, 1, 2] ∧
    (segmentUser 1800 1 [boundaryEventA, boundaryEventB, boundaryEventC]).dedup.length = 2 := by
  have hids : segmentUser 1800 1 [boundaryEventA, boundaryEventB, boundaryEventC] =
      [1, 1, 2] := by
    norm_num [segmentUser, assignIds, nextId, newConversationStart,
      boundaryEventA, boundaryEventB, boundaryEventC]
    decide
  refine ⟨?_, hids, by rw [hids]; decide⟩
  have h := c3_segment_boundary_rule 1800 1
    [boundaryEventA, boundaryEventB, boundaryEventC] 1
    boundaryEventB boundaryEventC 1 rfl rfl (by rw [hids]; decide)
  rw [h]
  norm_num [boundaryEventB, boundaryEventC]

/-- Keeping only first occurrences never lengthens the row list. -/
theorem dedupRowsSeen_length_le (seen : List String) (rs : List RawEvent) :
    (dedupRowsSeen seen rs).length ≤ rs.length := by
  induction rs generalizing seen with
  | nil => simp [dedupRowsSeen]
  | cons r rs ih =>
    by_cases h : r.block_data ∈ seen
    · simp only [dedupRowsSeen, if_pos h, List.length_cons]
      exact le_trans (ih seen) (Nat.le_succ _)
    · simp only [dedupRowsSeen, if_neg h, List.length_cons]
      exact Nat.succ_le_succ (ih _)

/-- Group of rows exercising verbatim-duplicate texts: first row. -/
def dupRow0 : RawEvent := ⟨3, 0, "request", "повтор", none⟩

/-- Second row, whose text verbatim-duplicates the first. -/
def dupRow1 : RawEvent := ⟨3, 60, "response", "повтор", none⟩

/-- Third row with fresh text. -/
def dupRow2 : RawEvent := ⟨3, 120, "response", "другое", none⟩

/-- Claim C9: a conversation built from a dialogue group keeps
`message_count` equal to the raw, non-deduplicated event count and
`duration = (max timestamp − min timestamp)` converted to minutes; the
deduplicated block list can only be shorter, and on a concrete group with a
verbatim-duplicate text the count stays 3 while only 2 blocks remain. -/
theorem c9_raw_count_and_duration (did : ℕ) (r0 : RawEvent) (rest : List RawEvent) :
    (buildConversation did r0 rest).message_count = (r0 :: rest).length ∧
    (buildConversation did r0 rest).duration_minutes =
      (maxTimestamp r0 rest - minTimestamp r0 rest) / 60 ∧
    (buildConversation did r0 rest).blocks.length ≤
      (buildConversation did r0 rest).message_count ∧
    (buildConversation 5 dupRow0 [dupRow1, dupRow2]).message_count = 3 ∧
    (buildConversation 5 dupRow0 [dupRow1, dupRow2]).blocks.length = 2 := by
  refine ⟨rfl, rfl, ?_, rfl, ?_⟩
  · show ((dedupRowsSeen [] (r0 :: rest)).map _).length ≤ (r0 :: rest).length
    rw [List.length_map]
    exact dedupRowsSeen_length_le [] (r0 :: rest)
  · decide

/-- Claim C5: when an attempt fails, the retry loop sleeps and retries only
for a rate-limit failure with attempts remaining, using the wait time parsed
from the failure message when present and `base·2^attempt + jitter`
otherwise; a failure of any other kind, or an exhausted attempt budget,
stops immediately with the default result and no recorded sleep. -/
theorem c5_retry_backoff_policy {α : Type} (oracle : ℕ → OracleStep α)
    (dflt : α) (max_retries : ℕ) (base : ℚ) (jitter : ℕ → ℚ)
    (a : ℕ) (rest : List ℕ) (m : String)
    (hm : oracle a = OracleStep.err m) :
    (isRateLimitError m = true → a + 1 < max_retries →
      runAttempts oracle dflt max_retries base jitter (a :: rest) =
        ((runAttempts oracle dflt max_retries base jitter rest).1,
          ((extract_wait_time m).getD (base * 2 ^ a + jitter a)) ::
            (runAttempts oracle dflt max_retries base jitter rest).2)) ∧
    (isRateLimitError m = false →
      runAttempts oracle dflt max_retries base jitter (a :: rest) = (dflt, [])) ∧
    (max_retries ≤ a + 1 →
      runAttempts oracle dflt max_retries base jitter (a :: rest) = (dflt, [])) := by
  refine ⟨?_, ?_, ?_⟩
  · intro hrl hlt
    have hc : a < max_retries - 1 := by omega
    simp [runAttempts, hm, handle_rate_limit_error, hrl, hc]
  · intro hrl
    simp [runAttempts, hm, handle_rate_limit_error, hrl]
  · intro hge
    have hc : ¬ a < max_retries - 1 := by omega
    simp [runAttempts, hm, handle_rate_limit_error, hc]

/-- A groq rate-limit failure message carrying a wait-time hint. -/
def rateLimitMsg : String :=
  "Error code: 429 - Rate limit reached for model. Please try again in 7.66s. Visit the docs for more."

/-- An oracle stub that rate-limits on every attempt. -/
def rateLimitOracleNat : ℕ → OracleStep ℕ :=
  fun _ => OracleStep.err rateLimitMsg

/-- Claim C5 (witness): at attempt 0 of 3 on a rate-limited failure the loop
records one sleep of the hinted duration and continues with the remaining
attempts; the hint is present in the message. -/
theorem c5_retry_backoff_policy_witness :
    isRateLimitError rateLimitMsg = true ∧ 0 + 1 < 3 ∧
    (extract_wait_time rateLimitMsg).isSome = true ∧
    runAttempts rateLimitOracleNat 0 3 1 (fun _ => 0) [0, 1, 2] =
      ((runAttempts rateLimitOracleNat 0 3 1 (fun _ => 0) [1, 2]).1,
        ((extract_wait_time rateLimitMsg).getD (1 * 2 ^ 0 + 0)) ::
          (runAttempts rateLimitOracleNat 0 3 1 (fun _ => 0) [1, 2]).2) := by
  refine ⟨by decide, by decide, by decide, ?_⟩
  exact (c5_retry_backoff_policy rateLimitOracleNat 0 3 1 (fun _ => 0) 0 [1, 2]
    rateLimitMsg rfl).1 (by decide) (by decide)

/-- A one-message conversation with a single user block and no analysis. -/
def userOnlyConv : Conversation :=
  { dialogue_id := 2, user_id := 1, start_time := 0, end_time := 900,
    duration_minutes := 15, message_count := 1, full_text := "привет",
    blocks := [⟨BlockType.user, "привет", none⟩],
    agent_types := [], departments := [], analysis := none }

/-- The groq mapper model driven by oracles that rate-limit on every
attempt (zero jitter). -/
def rateLimitedMapperModel : Conversation → Conversation :=
  map_conversation_model (fun _ => OracleStep.err rateLimitMsg)
    (fun _ => OracleStep.err rateLimitMsg) (fun _ => 0) (fun _ => 0)

/-- Claim C4 (counterexample): when the oracle rate-limits on all three
attempts, the per-conversation result is a Success (not a Failure), and the
returned conversation is not the unmodified original: it carries an attached
fallback analysis (default request category, default UX, keyword problems). -/
theorem c4_exhausted_rate_limit_attaches_default_analysis :
    (process_conversation_sync rateLimitedMapperModel userOnlyConv).success = true ∧
    (process_conversation_sync rateLimitedMapperModel userOnlyConv).conversation.analysis =
      some ⟨default_request_category, ⟨[]⟩, default_ux_analysis⟩ ∧
    (process_conversation_sync rateLimitedMapperModel userOnlyConv).conversation ≠
      userOnlyConv := by
  refine ⟨rfl, rfl, ?_⟩
  intro heq
  have ha := congrArg Conversation.analysis heq
  rw [show (process_conversation_sync rateLimitedMapperModel userOnlyConv).conversation.analysis =
      some ⟨default_request_category, ⟨[]⟩, default_ux_analysis⟩ from rfl] at ha
  exact Option.noConfusion ha

/-- Claim C4 (amended): exhausting all attempts on rate-limiting does not
produce a Failure with the unmodified conversation; instead the mapper falls
back to the default request category and default UX, merges the keyword
problem detection, attaches this analysis to a copy of the conversation, and
the per-task outcome is a Success — so the surrounding batch is unaffected. -/
theorem c4_rate_limit_exhaustion_fallback (c : Conversation) (err : String)
    (jux jint : ℕ → ℚ) (h : isRateLimitError err = true) :
    process_conversation_sync
        (map_conversation_model (fun _ => OracleStep.err err)
          (fun _ => OracleStep.err err) jux jint) c =
      ⟨{ c with analysis := some ⟨default_request_category,
          create_problem_detection_for_conversation c, default_ux_analysis⟩ },
        true, none⟩ := by
  have hr : List.range 3 = [0, 1, 2] := rfl
  simp [process_conversation_sync, map_conversation_model, analyze_ux_model,
    analyze_intent_model, hr, runAttempts, handle_rate_limit_error, h]

/-- Claim C4 (witness): the fallback behaviour at a concrete conversation and
a concrete rate-limit failure message. -/
theorem c4_rate_limit_exhaustion_fallback_witness :
    isRateLimitError rateLimitMsg = true ∧
    process_conversation_sync rateLimitedMapperModel userOnlyConv =
      ⟨{ userOnlyConv with analysis := some ⟨default_request_category,
          create_problem_detection_for_conversation userOnlyConv,
          default_ux_analysis⟩ }, true, none⟩ :=
  ⟨by decide,
    c4_rate_limit_exhaustion_fallback userOnlyConv rateLimitMsg
      (fun _ => 0) (fun _ => 0) (by decide)⟩

/-- The collected batch record at index `i` is determined by the submitted
conversation and its task outcome. -/
theorem collectBatch_get? :
    ∀ (batch : List Conversation) (outcomes : List TaskOutcome) (i : ℕ)
      (orig : Conversation) (oc : TaskOutcome),
      batch.get? i = some orig → outcomes.get? i = some oc →
      (collectBatch batch outcomes).get? i = some (taskRecord orig oc) := by
  intro batch
  induction batch with
  | nil => intro outcomes i orig oc h1 _; simp at h1
  | cons b bs ih =>
    intro outcomes i orig oc h1 h2
    match outcomes, h2 with
    | o :: os, h2 =>
      match i with
      | 0 =>
        simp only [List.get?_cons_zero, Option.some.injEq] at h1 h2
        subst h1; subst h2
        rfl
      | j + 1 =>
        simp only [List.get?_cons_succ] at h1 h2
        simpa [collectBatch, List.zip_cons_cons] using ih os j orig oc h1 h2

/-- Claim C6: the collection loop over one batch writes exactly one record
per submitted conversation; a task that resolves as a failure or raises (the
per-task timeout) contributes the original conversation — which carries its
(null) analysis unchanged — while a success contributes the analyzed
conversation. -/
theorem c6_every_conversation_recorded (batch : List Conversation)
    (outcomes : List TaskOutcome) (hlen : outcomes.length = batch.length) :
    (collectBatch batch outcomes).length = batch.length ∧
    ∀ (i : ℕ) (orig : Conversation) (oc : TaskOutcome),
      batch.get? i = some orig → outcomes.get? i = some oc →
      ((∀ e, oc = TaskOutcome.failure e →
          (collectBatch batch outcomes).get? i = some orig) ∧
       (oc = TaskOutcome.timedOut →
          (collectBatch batch outcomes).get? i = some orig) ∧
       (∀ analyzed, oc = TaskOutcome.success analyzed →
          (collectBatch batch outcomes).get? i = some analyzed)) := by
  constructor
  · simp [collectBatch, hlen]
  · intro i orig oc h1 h2
    have hc := collectBatch_get? batch outcomes i orig oc h1 h2
    refine ⟨?_, ?_, ?_⟩
    · intro e he; subst he; simpa [taskRecord] using hc
    · intro he; subst he; simpa [taskRecord] using hc
    · intro analyzed he; subst he; simpa [taskRecord] using hc

/-- First conversation of the batch-recording example. -/
def demoBatchConvA : Conversation :=
  { dialogue_id := 10, user_id := 4, start_time := 0, end_time := 0,
    duration_minutes := 0, message_count := 1, full_text := "а",
    blocks := [], agent_types := [], departments := [], analysis := none }

/-- Second conversation of the batch-recording example. -/
def demoBatchConvB : Conversation :=
  { demoBatchConvA with dialogue_id := 11, full_text := "б" }

/-- Analyzed copy of the first example conversation. -/
def demoAnalyzedConvA : Conversation :=
  { demoBatchConvA with
    analysis := some ⟨default_request_category, ⟨[]⟩, default_ux_analysis⟩ }

/-- Claim C6 (witness): a two-conversation batch whose second task times out
still yields two records, and the timed-out conversation is recorded as the
original with its null analysis. -/
theorem c6_every_conversation_recorded_witness :
    (collectBatch [demoBatchConvA, demoBatchConvB]
        [TaskOutcome.success demoAnalyzedConvA, TaskOutcome.timedOut]).length = 2 ∧
    (collectBatch [demoBatchConvA, demoBatchConvB]
        [TaskOutcome.success demoAnalyzedConvA, TaskOutcome.timedOut]).get? 1 =
      some demoBatchConvB ∧
    demoBatchConvB.analysis = none := by
  have h := c6_every_conversation_recorded [demoBatchConvA, demoBatchConvB]
    [TaskOutcome.success demoAnalyzedConvA, TaskOutcome.timedOut] rfl
  exact ⟨h.1, (h.2 1 demoBatchConvB TaskOutcome.timedOut rfl rfl).2.1 rfl, rfl⟩

/-- Replaying any prefix of the conv-processor write trace from a state whose
persisted count matches the completed work and whose checkpoint does not
exceed it preserves `checkpoint ≤ persisted`. -/
theorem conv_trace_checkpoint_le_persisted :
    ∀ (batches : List ℕ) (p c done : ℕ), p = done → c ≤ done →
    ∀ n : ℕ,
      (replayFrom ⟨p, c⟩ ((convProcessorTrace done batches).take n)).checkpoint ≤
      (replayFrom ⟨p, c⟩ ((convProcessorTrace done batches).take n)).persisted := by
  intro batches
  induction batches with
  | nil =>
    intro p c done hp hc n
    simp only [convProcessorTrace, List.take_nil, replayFrom, List.foldl_nil]
    omega
  | cons k rest ih =>
    intro p c done hp hc n
    match n with
    | 0 =>
      simp only [List.take_zero, replayFrom, List.foldl_nil]
      omega
    | 1 =>
      simp only [convProcessorTrace, List.take_succ_cons, List.take_zero,
        replayFrom, List.foldl_cons, List.foldl_nil, applyEvent]
      omega
    | 2 =>
      simp only [convProcessorTrace, List.take_succ_cons, List.take_zero,
        replayFrom, List.foldl_cons, List.foldl_nil, applyEvent]
      omega
    | m + 3 =>
      have htake : (convProcessorTrace done (k :: rest)).take (m + 3) =
          PersistEvent.writeResults k :: PersistEvent.writeCheckpoint (done + k) ::
            PersistEvent.sleepBetween :: ((convProcessorTrace (done + k) rest).take m) := by
        simp [convProcessorTrace]
      rw [htake]
      simp only [replayFrom, List.foldl_cons, applyEvent]
      exact ih (p + k) (done + k) (done + k) (by omega) (by omega) m

/-- Claim C1 (amended): in `ConversationProcessor.process_conversations_concurrent`
the batch's results are appended to the result store before the checkpoint is
written, so after any prefix of a fresh run's writes the checkpoint index
never exceeds the number of persisted results; in
`GroqProcessor.process_ux_and_intent_analysis` each batch instead writes the
checkpoint first and the results file second. -/
theorem c1_conv_checkpoint_only_after_persist (batches : List ℕ) (n : ℕ) :
    ((replayFrom ⟨0, 0⟩ ((convProcessorTrace 0 batches).take n)).checkpoint ≤
      (replayFrom ⟨0, 0⟩ ((convProcessorTrace 0 batches).take n)).persisted) ∧
    (∀ (done k : ℕ) (rest : List ℕ),
      groqProcessorTrace done (k :: rest) =
        PersistEvent.writeCheckpoint (done + k) :: PersistEvent.writeResults k ::
          PersistEvent.sleepBetween :: groqProcessorTrace (done + k) rest) :=
  ⟨conv_trace_checkpoint_le_persisted batches 0 0 0 rfl (Nat.le_refl 0) n,
   fun _ _ _ => rfl⟩

/-- Claim C1 (counterexample): in the groq processor's write order, after the
first write of a 25-conversation batch the checkpoint already reads 25 while
no results have been persisted — the checkpoint is updated before the batch's
results are written and exceeds the persisted count. -/
theorem c1_groq_checkpoint_before_persist :
    (groqProcessorTrace 0 [25]).take 1 = [PersistEvent.writeCheckpoint 25] ∧
    (replayFrom ⟨0, 0⟩ ((groqProcessorTrace 0 [25]).take 1)).persisted = 0 ∧
    (replayFrom ⟨0, 0⟩ ((groqProcessorTrace 0 [25]).take 1)).checkpoint = 25 :=
  ⟨rfl, rfl, rfl⟩

/-- Membership in the keyword-loop output: exactly the table entries whose
keyword list matches the text. -/
theorem mem_detectLoop (text : String) :
    ∀ (tbl : List (ProblemType × List String)) (k : ProblemType),
      k ∈ detectLoop text tbl ↔
        ∃ kws, (k, kws) ∈ tbl ∧ hasKeywords text kws = true := by
  intro tbl
  induction tbl with
  | nil => intro k; simp [detectLoop]
  | cons hd rest ih =>
    obtain ⟨t, kws⟩ := hd
    intro k
    by_cases h : hasKeywords text kws = true
    · simp only [detectLoop, if_pos h, List.singleton_append, List.mem_cons, ih]
      constructor
      · rintro (rfl | ⟨kws2, hm, hk⟩)
        · exact ⟨kws, Or.inl rfl, h⟩
        · exact ⟨kws2, Or.inr hm, hk⟩
      · rintro ⟨kws2, hmem, hk⟩
        rcases hmem with heq | hm
        · injection heq with h1 h2
          exact Or.inl h1
        · exact Or.inr ⟨kws2, hm, hk⟩
    · simp only [detectLoop, if_neg h, List.nil_append, ih, List.mem_cons]
      constructor
      · rintro ⟨kws2, hm, hk⟩
        exact ⟨kws2, Or.inr hm, hk⟩
      · rintro ⟨kws2, hmem, hk⟩
        rcases hmem with heq | hm
        · injection heq with h1 h2
          subst h1
          subst h2
          exact absurd hk h
        · exact ⟨kws2, hm, hk⟩

/-- Every entry of the keyword table pairs a non-latency problem type with
its keyword list. -/
theorem keywordTable_mem_elim {k : ProblemType} {kws : List String}
    (h : (k, kws) ∈ keywordTable) :
    kws = problemKeywords k ∧ k ≠ ProblemType.performance_latency := by
  simp only [keywordTable, List.mem_cons, List.not_mem_nil, or_false,
    Prod.mk.injEq] at h
  rcases h with ⟨rfl, rfl⟩ | ⟨rfl, rfl⟩ | ⟨rfl, rfl⟩ | ⟨rfl, rfl⟩ | ⟨rfl, rfl⟩ <;>
    exact ⟨rfl, by decide⟩

/-- Every non-latency problem type appears in the keyword table with its
keyword list. -/
theorem keywordTable_mem_intro (k : ProblemType)
    (hk : k ≠ ProblemType.performance_latency) :
    (k, problemKeywords k) ∈ keywordTable := by
  cases k
  case performance_latency => exact absurd rfl hk
  all_goals simp [keywordTable]

/-- Conversation containing the spec's technical-issue phrase. -/
def ruExampleConv : Conversation :=
  { dialogue_id := 20, user_id := 9, start_time := 0, end_time := 60,
    duration_minutes := 1, message_count := 1,
    full_text := "Извините, ошибка сервера",
    blocks := [⟨BlockType.user, "Извините, ошибка сервера", none⟩],
    agent_types := [], departments := [], analysis := none }

/-- A 15-minute conversation containing both a user and a system block. -/
def latencyExampleConv : Conversation :=
  { dialogue_id := 21, user_id := 9, start_time := 0, end_time := 900,
    duration_minutes := 15, message_count := 2, full_text := "привет ок",
    blocks := [⟨BlockType.user, "привет", none⟩, ⟨BlockType.system, "ок", none⟩],
    agent_types := [], departments := [], analysis := none }

/-- Claim C7 (amended): the detector reports a problem kind exactly when one
of its keywords occurs in the lower-cased joined block text (or fallback full
text), and reports the latency kind exactly when `_has_performance_latency`
holds — which requires the duration in seconds to exceed the threshold AND
(no blocks at all, or at least one user block and one system block). The
spec's phrase with "ошибка" yields technical issues, and a 15-minute
user/system conversation with a 10-second threshold yields latency. -/
theorem c7_detector_membership :
    (∀ (thr : ℚ) (c : Conversation) (k : ProblemType),
      k ∈ detect_problems thr c ↔
        ((hasKeywords (getConversationText c) (problemKeywords k) = true ∧
          k ≠ ProblemType.performance_latency) ∨
         (k = ProblemType.performance_latency ∧
          hasPerformanceLatency thr c = true))) ∧
    ProblemType.technical_issues ∈ detect_problems 10 ruExampleConv ∧
    ProblemType.performance_latency ∈ detect_problems 10 latencyExampleConv := by
  refine ⟨?_, ?_, ?_⟩
  · intro thr c k
    simp only [detect_problems, List.mem_append]
    constructor
    · rintro (hl | hr)
      · obtain ⟨kws, hm, hk⟩ := (mem_detectLoop _ _ _).mp hl
        obtain ⟨heq, hne⟩ := keywordTable_mem_elim hm
        subst heq
        exact Or.inl ⟨hk, hne⟩
      · by_cases hp : hasPerformanceLatency thr c = true
        · simp only [hp, if_true, List.mem_singleton] at hr
          exact Or.inr ⟨hr, hp⟩
        · simp only [eq_false_of_ne_true hp, List.not_mem_nil] at hr
          cases hr
    · rintro (⟨hk, hne⟩ | ⟨rfl, hp⟩)
      · exact Or.inl ((mem_detectLoop _ _ _).mpr
          ⟨problemKeywords k, keywordTable_mem_intro k hne, hk⟩)
      · right
        simp [hp]
  · decide
  · have hperf : hasPerformanceLatency 10 latencyExampleConv = true := by
      have h1 : hasPerformanceLatency 10 latencyExampleConv =
          decide ((15 : ℚ) * 60 > 10) := rfl
      rw [h1, decide_eq_true_eq]
      norm_num
    simp [detect_problems, hperf]

/-- Claim C7 (counterexample): a 15-minute conversation whose blocks contain
no system block is not reported as latency by the detector even though its
duration far exceeds the 10-second threshold — the claim's "whenever the
duration exceeds the threshold" fails. -/
theorem c7_latency_requires_user_and_system_blocks :
    userOnlyConv.duration_minutes * 60 > 10 ∧
    hasPerformanceLatency 10 userOnlyConv = false ∧
    ProblemType.performance_latency ∉ detect_problems 10 userOnlyConv := by
  refine ⟨?_, rfl, by decide⟩
  show (15 : ℚ) * 60 > 10
  norm_num

end FinamTask
